import Mathlib

/-
Verification of the async-buf-pool object pool (src/src/lib.rs).

The library builds on the external crate async_channel: an unbounded
multi-producer multi-consumer FIFO channel.  In this shallow embedding the
Sender and Receiver ends of one channel are modelled as a single Channel
value threaded through the operations by explicit state passing: a Sender or
Receiver clone is an alias of the same channel state, and "the channel is
closed" (all ends of one side dropped, or an explicit close) is a Boolean
flag.  An unbounded channel is never full, so try_send fails exactly when
the channel is closed.
-/

set_option autoImplicit false

namespace AsyncBufPool

universe u

/-- State of one async_channel unbounded channel: the FIFO queue of values
currently buffered, and whether the channel has been closed. -/
structure Channel (T : Type u) where
  queue : List T
  closed : Bool
  deriving Repr, DecidableEq

/-- Model of async_channel.unbounded(): a fresh, open, empty channel shared
by the returned Sender and Receiver. -/
def Channel.new (T : Type u) : Channel T :=
  { queue := [], closed := false }

/-- Sender.len / Receiver.len: number of values currently buffered. -/
def Channel.len {T : Type u} (c : Channel T) : Nat :=
  c.queue.length

/-- Sender.is_empty / Receiver.is_empty. -/
def Channel.is_empty {T : Type u} (c : Channel T) : Bool :=
  c.queue.isEmpty

/-- Result of Sender.try_send on an unbounded channel: on success the value
is appended to the queue; on failure (channel closed) the value is handed
back to the caller inside the error, and the channel is unchanged. -/
inductive TrySendResult (T : Type u) where
  | ok (c : Channel T)
  | err (t : T)
  deriving Repr, DecidableEq

/-- Sender.try_send, specialised to an unbounded channel: never Full, fails
exactly when the channel is closed. -/
def Channel.try_send {T : Type u} (c : Channel T) (t : T) : TrySendResult T :=
  if c.closed then .err t else .ok { queue := c.queue ++ [t], closed := c.closed }

/-- Error cases of Receiver.try_recv. -/
inductive TryRecvError where
  | empty
  | closed
  deriving Repr, DecidableEq

/-- Receiver.try_recv: pops the front value if one is buffered (even on a
closed channel); on an empty queue it reports empty or closed. -/
def Channel.try_recv {T : Type u} (c : Channel T) :
    Except TryRecvError (T × Channel T) :=
  match c.queue with
  | [] => .error (if c.closed then .closed else .empty)
  | t :: rest => .ok (t, { queue := rest, closed := c.closed })

/-- The PoolError enum of src/src/lib.rs. -/
inductive PoolError where
  | AttachError
  | NoBuffersAvailable
  deriving Repr, DecidableEq

/-- The Reusable handle of src/src/lib.rs.  The Rust struct holds a Sender
clone (an alias of the pool channel, supplied separately in this state
passing model) and the wrapped value inside ManuallyDrop.  ManuallyDrop is
a plain slot holding the bits of the value with no emptied flag: take
performs a bit copy read and leaves the slot unchanged, so the data field
here is simply the stored value. -/
structure Reusable (T : Type u) where
  data : T
  deriving Repr, DecidableEq

/-- The Pool struct of src/src/lib.rs.  object_bucket (Receiver) and
object_return (Sender) are two ends of the same channel, represented by the
single chan field.  extend_fn is the shared factory; to count invocations
the model indexes them: the k-th call (0-based) returns extend_fn k, and
factoryCalls records how many calls have happened so far. -/
structure PoolState (T : Type u) where
  chan : Channel T
  extend_fn : Nat → T
  factoryCalls : Nat

/-- The construction loop of Pool::new: for each of the m iterations it
invokes the factory once and try_sends the result, with
expect "Pool is closed" turning a failed try_send into a panic (modelled as
Except.error carrying the panic message). -/
def Pool.newLoop {T : Type u} (init : Nat → T) :
    Nat → Channel T → Nat → Except String (Channel T × Nat)
  | 0, c, calls => .ok (c, calls)
  | Nat.succ m, c, calls =>
    match c.try_send (init calls) with
    | .ok c2 => Pool.newLoop init m c2 (calls + 1)
    | .err _ => .error "Pool is closed"

/-- Pool::new(initial_capacity, init): creates a fresh unbounded channel,
eagerly fills it with initial_capacity factory products, and returns the
pool.  The Except.error case is the expect panic. -/
def Pool.new {T : Type u} (initial_capacity : Nat) (init : Nat → T) :
    Except String (PoolState T) :=
  match Pool.newLoop init initial_capacity (Channel.new T) 0 with
  | .ok (c, calls) => .ok { chan := c, extend_fn := init, factoryCalls := calls }
  | .error e => .error e

/-- Pool::len: length of the object_bucket end. -/
def Pool.len {T : Type u} (st : PoolState T) : Nat :=
  st.chan.len

/-- Pool::is_empty. -/
def Pool.is_empty {T : Type u} (st : PoolState T) : Bool :=
  st.chan.is_empty

/-- Pool::try_pull: try_recv on object_bucket, wrapping a received value in
a Reusable handle; every receive error is collapsed to NoBuffersAvailable.
It is a plain synchronous function: it never suspends.  The pool state after
the call is returned alongside the result. -/
def Pool.try_pull {T : Type u} (st : PoolState T) :
    Except PoolError (Reusable T) × PoolState T :=
  match st.chan.try_recv with
  | .ok (t, c) => (.ok { data := t }, { st with chan := c })
  | .error _ => (.error .NoBuffersAvailable, st)

/-- One-step outcome of the suspending Pool::pull (recv().await): either a
value is buffered and a handle is produced, or the channel is drained and
closed and recv returns an error which pull maps to None, or the queue is
empty on an open channel and the call suspends (pending). -/
inductive PullOutcome (T : Type u) where
  | handle (r : Reusable T) (st : PoolState T)
  | closedNone (st : PoolState T)
  | pending

/-- Pool::pull: the completed behaviours of recv().await on the
object_bucket end, as a one-step transition. -/
def Pool.pull {T : Type u} (st : PoolState T) : PullOutcome T :=
  match st.chan.queue with
  | t :: rest =>
    .handle { data := t } { st with chan := { queue := rest, closed := st.chan.closed } }
  | [] => if st.chan.closed then .closedNone st else .pending

/-- Pool::try_attach: try_send on object_return, mapping failure to
AttachError.  On failure the value is handed back to the caller inside the
SendError and the channel is unchanged. -/
def Pool.try_attach {T : Type u} (st : PoolState T) (t : T) :
    Except PoolError Unit × PoolState T :=
  match st.chan.try_send t with
  | .ok c => (.ok (), { st with chan := c })
  | .err _ => (.error .AttachError, st)

/-- Pool::attach: send(t).await on object_return.  On an unbounded channel
send never waits for capacity, so its completed behaviour coincides with
try_send: success appends, failure (closed channel) reports AttachError. -/
def Pool.attach {T : Type u} (st : PoolState T) (t : T) :
    Except PoolError Unit × PoolState T :=
  match st.chan.try_send t with
  | .ok c => (.ok (), { st with chan := c })
  | .err _ => (.error .AttachError, st)

/-- Pool::expand: self.try_attach((self.extend_fn)()).  The factory is
invoked unconditionally, before try_attach decides success or failure; on
failure the freshly built value is dropped. -/
def Pool.expand {T : Type u} (st : PoolState T) :
    Except PoolError Unit × PoolState T :=
  let t := st.extend_fn st.factoryCalls
  Pool.try_attach { st with factoryCalls := st.factoryCalls + 1 } t

/-- Outcome of the Drop implementation of Reusable: the object went back to
the pool, or it was silently discarded.  There is no error or panic
constructor: the Drop body handles both arms of try_send itself. -/
inductive DropOutcome where
  | returned
  | discarded
  deriving Repr, DecidableEq

/-- impl Drop for Reusable (src/src/lib.rs lines 131-141): takes the value
out of the ManuallyDrop slot and try_sends it to the pool channel; if the
send fails the error (carrying the object) is dropped, discarding the
object.  Both arms produce a channel state; nothing is raised. -/
def Reusable.dropImpl {T : Type u} (r : Reusable T) (ch : Channel T) :
    DropOutcome × Channel T :=
  match ch.try_send r.data with
  | .ok c => (.returned, c)
  | .err _ => (.discarded, ch)

/-- The tuple built by the body of Reusable::detach: a clone of the Sender
(an alias of the pool channel in this model) and the value read out of the
ManuallyDrop slot. -/
def Reusable.detachBody {T : Type u} (r : Reusable T) : T :=
  r.data

/-- Full Rust semantics of calling Reusable::detach on a handle whose pool
channel is in state ch.  The body returns (sender clone, extracted value),
and because detach takes self by value and does not mem::forget it, the
Drop implementation then runs on self at scope exit, reading the
ManuallyDrop slot again (ManuallyDrop::take is a bit copy that leaves the
slot intact) and try_sending that second copy to the pool.  The result is
the value handed to the caller together with the channel state after the
implicit drop. -/
def Reusable.detachCall {T : Type u} (r : Reusable T) (ch : Channel T) :
    T × Channel T :=
  (Reusable.detachBody r, (Reusable.dropImpl r ch).2)

/-- Detach as the spec describes it (teardown bypassed after extraction):
the caller receives the value and the channel is untouched.  Kept alongside
detachCall to state how the code diverges from the spec. -/
def Reusable.detachSpec {T : Type u} (r : Reusable T) (ch : Channel T) :
    T × Channel T :=
  (r.data, ch)

/-- Whole-system state for trace reasoning: the pool, the multiset of
values currently held by live handles (as a list), and the ghost counters
of the conservation claim — objects ever introduced into the pool
(initial fill or successful attach or expand) and objects discarded because
a handle drop found the channel closed. -/
structure SysState (T : Type u) where
  pool : PoolState T
  handles : List T
  introduced : Nat
  discarded : Nat

/-- Operations of a pull/return trace: a non-blocking pull, dropping the
i-th live handle, attaching an external value, and expanding the pool. -/
inductive Op (T : Type u) where
  | pullOp
  | dropOp (i : Nat)
  | attachOp (t : T)
  | expandOp

/-- One step of the system: each operation updates the pool channel exactly
as the corresponding library function does, and maintains the handle list
and the ghost counters. -/
def SysState.step {T : Type u} (s : SysState T) : Op T → SysState T
  | .pullOp =>
    match Pool.try_pull s.pool with
    | (.ok r, st2) => { s with pool := st2, handles := r.data :: s.handles }
    | (.error _, st2) => { s with pool := st2 }
  | .dropOp i =>
    if h : i < s.handles.length then
      let t := s.handles.get ⟨i, h⟩
      let s2 := { s with handles := s.handles.eraseIdx i }
      match Reusable.dropImpl { data := t } s2.pool.chan with
      | (.returned, c) => { s2 with pool := { s2.pool with chan := c } }
      | (.discarded, _) => { s2 with discarded := s2.discarded + 1 }
    else s
  | .attachOp t =>
    match Pool.attach s.pool t with
    | (.ok _, st2) => { s with pool := st2, introduced := s.introduced + 1 }
    | (.error _, st2) => { s with pool := st2 }
  | .expandOp =>
    match Pool.expand s.pool with
    | (.ok _, st2) => { s with pool := st2, introduced := s.introduced + 1 }
    | (.error _, st2) => { s with pool := st2 }

/-- Run a trace of operations from a system state. -/
def SysState.run {T : Type u} (s : SysState T) : List (Op T) → SysState T
  | [] => s
  | op :: ops => SysState.run (s.step op) ops

/-- The system state immediately after Pool::new produced pool st with n
objects introduced by the initial fill. -/
def SysState.init {T : Type u} (st : PoolState T) (n : Nat) : SysState T :=
  { pool := st, handles := [], introduced := n, discarded := 0 }

/-- The conservation quantity of the spec: live handles plus available
objects plus objects discarded on a failed return equals objects ever
introduced. -/
def conserved {T : Type u} (s : SysState T) : Prop :=
  s.handles.length + Pool.len s.pool + s.discarded = s.introduced

/-- Helper: on an open channel the construction loop never hits the expect
branch; it appends m factory products and advances the call counter by m. -/
theorem Pool.newLoop_spec {T : Type u} (init : Nat → T) :
    ∀ (m : Nat) (q : List T) (calls : Nat), ∃ q2 : List T,
      Pool.newLoop init m { queue := q, closed := false } calls =
        .ok ({ queue := q2, closed := false }, calls + m) ∧
      q2.length = q.length + m := by
  intro m
  induction m with
  | zero => intro q calls; exact ⟨q, rfl, rfl⟩
  | succ m ih =>
    intro q calls
    obtain ⟨q2, hrun, hlen⟩ := ih (q ++ [init calls]) (calls + 1)
    refine ⟨q2, ?_, ?_⟩
    · simp only [Pool.newLoop, Channel.try_send, Bool.false_eq_true, if_false, hrun]
      congr 2
      omega
    · simp only [hlen, List.length_append, List.length_singleton]
      omega

/-- Helper: the exact result of Pool::new — it always succeeds, the channel
is open, the queue holds initial_capacity objects and the factory has been
called initial_capacity times. -/
theorem Pool.new_spec {T : Type u} (n : Nat) (init : Nat → T) :
    ∃ q : List T,
      Pool.new n init =
        .ok { chan := { queue := q, closed := false }, extend_fn := init,
              factoryCalls := n } ∧
      q.length = n := by
  obtain ⟨q2, hrun, hlen⟩ := Pool.newLoop_spec init n [] 0
  refine ⟨q2, ?_, by simpa using hlen⟩
  simp only [Pool.new, Channel.new, hrun, Nat.zero_add]

/-- Claim C4: for every initial_capacity n and every factory, immediately
after Pool::new(n, factory) the pool satisfies len() = n and
is_empty() = (n = 0), and the factory has been invoked exactly n times. -/
theorem new_fills_pool {T : Type u} (n : Nat) (init : Nat → T) :
    ∃ st : PoolState T, Pool.new n init = Except.ok st ∧
      Pool.len st = n ∧ Pool.is_empty st = decide (n = 0) ∧
      st.factoryCalls = n := by
  obtain ⟨q, hnew, hlen⟩ := Pool.new_spec n init
  refine ⟨_, hnew, ?_, ?_, rfl⟩
  · simpa [Pool.len, Channel.len] using hlen
  · subst hlen
    simp only [Pool.is_empty, Channel.is_empty]
    cases q <;> simp

/-- Claim C9: the expect "Pool is closed" branch in Pool::new is
unreachable — for every initial_capacity and factory, construction always
succeeds, because the channel created by unbounded() alongside the
receiving end owned by the constructor is open throughout the fill loop. -/
theorem new_never_panics {T : Type u} (n : Nat) (init : Nat → T) :
    ∃ st : PoolState T, Pool.new n init = Except.ok st := by
  obtain ⟨q, hnew, _⟩ := Pool.new_spec n init
  exact ⟨_, hnew⟩

/-- Claim C5: try_pull on a pool whose channel holds no value fails with
NoBuffersAvailable and returns the pool state unchanged (so len() is
unchanged); on a pool holding a value it returns a handle wrapping the
front value, removing it from the queue.  try_pull is modelled as a total
synchronous function, so it cannot suspend. -/
theorem try_pull_spec {T : Type u} (st : PoolState T) :
    (st.chan.queue = [] →
      Pool.try_pull st = (Except.error PoolError.NoBuffersAvailable, st)) ∧
    (∀ (t : T) (rest : List T), st.chan.queue = t :: rest →
      (Pool.try_pull st).1 = Except.ok { data := t } ∧
      (Pool.try_pull st).2.chan = { queue := rest, closed := st.chan.closed }) := by
  constructor
  · intro hq
    simp [Pool.try_pull, Channel.try_recv, hq]
  · intro t rest hq
    constructor <;> simp [Pool.try_pull, Channel.try_recv, hq]

/-- Witness for C5 at concrete pools: an empty pool and a pool holding 3. -/
theorem try_pull_spec_witness :
    Pool.try_pull (⟨⟨[], false⟩, fun _ => 0, 0⟩ : PoolState Nat) =
      (Except.error PoolError.NoBuffersAvailable, ⟨⟨[], false⟩, fun _ => 0, 0⟩) ∧
    (Pool.try_pull (⟨⟨[3], false⟩, fun _ => 0, 0⟩ : PoolState Nat)).1 =
      Except.ok { data := 3 } :=
  ⟨(try_pull_spec _).1 rfl, ((try_pull_spec _).2 3 [] rfl).1⟩

/-- Claim C6: expand() fails with AttachError exactly when the channel is
closed; on an open channel it succeeds and increases len() by exactly one;
and in every case it invokes the factory exactly once. -/
theorem expand_spec {T : Type u} (st : PoolState T) :
    ((Pool.expand st).1 = Except.error PoolError.AttachError ↔
      st.chan.closed = true) ∧
    (st.chan.closed = false →
      (Pool.expand st).1 = Except.ok () ∧
      Pool.len (Pool.expand st).2 = Pool.len st + 1) ∧
    (Pool.expand st).2.factoryCalls = st.factoryCalls + 1 := by
  cases hcl : st.chan.closed <;>
    simp [Pool.expand, Pool.try_attach, Channel.try_send, hcl, Pool.len,
      Channel.len]

/-- Witness for C6 at a concrete open pool. -/
theorem expand_spec_witness :
    (Pool.expand (⟨⟨[], false⟩, fun _ => 9, 0⟩ : PoolState Nat)).1 =
      Except.ok () ∧
    Pool.len (Pool.expand (⟨⟨[], false⟩, fun _ => 9, 0⟩ : PoolState Nat)).2 =
      Pool.len (⟨⟨[], false⟩, fun _ => 9, 0⟩ : PoolState Nat) + 1 :=
  (expand_spec _).2.1 rfl

/-- Claim C8: the Drop implementation of Reusable never surfaces an error:
for every element type, every handle and every channel state its outcome is
returned or discarded (the outcome type has no failure case); when the
channel is closed the object is silently discarded and the channel is left
unchanged, and when it is open the object goes back onto the queue. -/
theorem drop_never_fails {T : Type u} (r : Reusable T) (ch : Channel T) :
    ((Reusable.dropImpl r ch).1 = DropOutcome.returned ∨
      (Reusable.dropImpl r ch).1 = DropOutcome.discarded) ∧
    (ch.closed = true →
      Reusable.dropImpl r ch = (DropOutcome.discarded, ch)) ∧
    (ch.closed = false →
      Reusable.dropImpl r ch =
        (DropOutcome.returned, { queue := ch.queue ++ [r.data], closed := false })) := by
  cases hcl : ch.closed <;> simp [Reusable.dropImpl, Channel.try_send, hcl]

/-- Witness for C8: a handle dropped onto a closed channel silently
discards its object and leaves the channel unchanged. -/
theorem drop_never_fails_witness :
    Reusable.dropImpl (⟨4⟩ : Reusable Nat) ⟨[], true⟩ =
      (DropOutcome.discarded, ⟨[], true⟩) :=
  (drop_never_fails _ _).2.1 rfl

/-- Claim C10: expand() on a pool with a closed channel reports AttachError
yet has already invoked the factory exactly once; the fresh object never
reaches the channel, which is left unchanged. -/
theorem expand_closed_still_invokes_factory {T : Type u} (st : PoolState T)
    (h : st.chan.closed = true) :
    (Pool.expand st).1 = Except.error PoolError.AttachError ∧
    (Pool.expand st).2.chan = st.chan ∧
    (Pool.expand st).2.factoryCalls = st.factoryCalls + 1 := by
  simp [Pool.expand, Pool.try_attach, Channel.try_send, h]

/-- Witness for C10 at a concrete closed-channel pool. -/
theorem expand_closed_still_invokes_factory_witness :
    (Pool.expand (⟨⟨[], true⟩, fun _ => 1, 0⟩ : PoolState Nat)).1 =
      Except.error PoolError.AttachError ∧
    (Pool.expand (⟨⟨[], true⟩, fun _ => 1, 0⟩ : PoolState Nat)).2.chan =
      (⟨⟨[], true⟩, fun _ => 1, 0⟩ : PoolState Nat).chan ∧
    (Pool.expand (⟨⟨[], true⟩, fun _ => 1, 0⟩ : PoolState Nat)).2.factoryCalls =
      (⟨⟨[], true⟩, fun _ => 1, 0⟩ : PoolState Nat).factoryCalls + 1 :=
  expand_closed_still_invokes_factory _ rfl

/-- Claim C3: on a pool with at least one available object and an open
channel (a live Pool owns a Sender and a Receiver, so its channel is open),
pull() completes with a handle, and letting that handle go out of scope
without detaching returns the object: the drop outcome is returned and the
channel length after the drop equals len() before the pull. -/
theorem pull_then_scope_drop {T : Type u} (st : PoolState T)
    (h1 : 0 < Pool.len st) (h2 : st.chan.closed = false) :
    ∃ (r : Reusable T) (st2 : PoolState T),
      Pool.pull st = PullOutcome.handle r st2 ∧
      (Reusable.dropImpl r st2.chan).1 = DropOutcome.returned ∧
      Channel.len (Reusable.dropImpl r st2.chan).2 = Pool.len st := by
  match hq : st.chan.queue with
  | [] => simp [Pool.len, Channel.len, hq] at h1
  | t :: rest =>
    refine ⟨{ data := t },
      { st with chan := { queue := rest, closed := st.chan.closed } }, ?_, ?_, ?_⟩
    · simp [Pool.pull, hq]
    · simp [Reusable.dropImpl, Channel.try_send, h2]
    · simp [Reusable.dropImpl, Channel.try_send, h2, Channel.len, Pool.len, hq]

/-- Witness for C3 at a concrete one-object pool. -/
theorem pull_then_scope_drop_witness :
    0 < Pool.len (⟨⟨[5], false⟩, fun _ => 5, 1⟩ : PoolState Nat) ∧
    (∃ (r : Reusable Nat) (st2 : PoolState Nat),
      Pool.pull (⟨⟨[5], false⟩, fun _ => 5, 1⟩ : PoolState Nat) =
        PullOutcome.handle r st2 ∧
      (Reusable.dropImpl r st2.chan).1 = DropOutcome.returned ∧
      Channel.len (Reusable.dropImpl r st2.chan).2 =
        Pool.len (⟨⟨[5], false⟩, fun _ => 5, 1⟩ : PoolState Nat)) :=
  ⟨by decide, pull_then_scope_drop _ (by decide) rfl⟩

/-- Claim C1 is false on the code: detach takes self by value without
mem::forget, so after its body extracts the value the Drop implementation
still runs, reads the ManuallyDrop slot a second time and try_sends that
bit copy to the pool.  Concretely: build a pool of one object 7, pull it
(queue now empty), detach — the caller receives 7 AND the pool queue holds
a duplicate 7, whereas the behaviour the spec describes (detachSpec) leaves
the queue empty.  The wrapped value is thus extracted twice, by detach and
by teardown. -/
theorem detach_drop_glue_acts :
    ∃ (st0 st1 : PoolState Nat) (r : Reusable Nat),
      Pool.new 1 (fun _ => 7) = Except.ok st0 ∧
      Pool.try_pull st0 = (Except.ok r, st1) ∧
      st1.chan.queue = [] ∧
      Reusable.detachCall r st1.chan = (7, { queue := [7], closed := false }) ∧
      Reusable.detachSpec r st1.chan = (7, { queue := [], closed := false }) :=
  ⟨⟨⟨[7], false⟩, fun _ => 7, 1⟩, ⟨⟨[], false⟩, fun _ => 7, 1⟩, ⟨7⟩,
    rfl, rfl, rfl, rfl, rfl⟩

/-- Claim C2 is false on the code: after pull (len = 0) the
detach-and-resubmit round trip leaves len = 2, not len-after-pull + 1,
because the drop glue that runs at the end of detach already pushed a
duplicate of the extracted value. -/
theorem detach_resubmit_adds_two :
    ∃ (st0 st1 : PoolState Nat) (r : Reusable Nat) (ch2 ch3 : Channel Nat),
      Pool.new 1 (fun _ => 7) = Except.ok st0 ∧
      Pool.try_pull st0 = (Except.ok r, st1) ∧
      Pool.len st1 = 0 ∧
      Reusable.detachCall r st1.chan = (7, ch2) ∧
      Channel.try_send ch2 7 = TrySendResult.ok ch3 ∧
      Channel.len ch3 = 2 ∧
      Channel.len ch3 ≠ Pool.len st1 + 1 :=
  ⟨⟨⟨[7], false⟩, fun _ => 7, 1⟩, ⟨⟨[], false⟩, fun _ => 7, 1⟩, ⟨7⟩,
    ⟨[7], false⟩, ⟨[7, 7], false⟩, rfl, rfl, rfl, rfl, rfl, rfl, by decide⟩

/-- Helper: each trace operation preserves the conservation quantity. -/
theorem SysState.step_conserved {T : Type u} (s : SysState T) (op : Op T)
    (h : conserved s) : conserved (s.step op) := by
  cases op with
  | pullOp =>
    cases hq : s.pool.chan.queue with
    | nil =>
      simpa [SysState.step, Pool.try_pull, Channel.try_recv, hq, conserved,
        Pool.len, Channel.len] using h
    | cons t rest =>
      simp only [conserved, Pool.len, Channel.len, hq, List.length_cons] at h
      simp only [SysState.step, Pool.try_pull, Channel.try_recv, hq, conserved,
        Pool.len, Channel.len, List.length_cons]
      omega
  | dropOp i =>
    by_cases hi : i < s.handles.length
    · have herase := List.length_eraseIdx_add_one hi
      cases hcl : s.pool.chan.closed with
      | false =>
        simp only [conserved, Pool.len, Channel.len] at h
        simp only [SysState.step, hi, dif_pos, Reusable.dropImpl,
          Channel.try_send, hcl, Bool.false_eq_true, if_false, conserved,
          Pool.len, Channel.len, List.length_append, List.length_singleton]
        omega
      | true =>
        simp only [conserved, Pool.len, Channel.len] at h
        simp only [SysState.step, hi, dif_pos, Reusable.dropImpl,
          Channel.try_send, hcl, if_true, conserved, Pool.len, Channel.len]
        omega
    · simpa [SysState.step, hi] using h
  | attachOp t =>
    cases hcl : s.pool.chan.closed with
    | false =>
      simp only [conserved, Pool.len, Channel.len] at h
      simp only [SysState.step, Pool.attach, Channel.try_send, hcl,
        Bool.false_eq_true, if_false, conserved, Pool.len, Channel.len,
        List.length_append, List.length_singleton]
      omega
    | true =>
      simpa [SysState.step, Pool.attach, Channel.try_send, hcl, conserved,
        Pool.len, Channel.len] using h
  | expandOp =>
    cases hcl : s.pool.chan.closed with
    | false =>
      simp only [conserved, Pool.len, Channel.len] at h
      simp only [SysState.step, Pool.expand, Pool.try_attach, Channel.try_send,
        hcl, Bool.false_eq_true, if_false, conserved, Pool.len, Channel.len,
        List.length_append, List.length_singleton]
      omega
    | true =>
      simpa [SysState.step, Pool.expand, Pool.try_attach, Channel.try_send,
        hcl, conserved, Pool.len, Channel.len] using h

/-- Helper: a whole trace preserves the conservation quantity. -/
theorem SysState.run_conserved {T : Type u} (ops : List (Op T)) :
    ∀ s : SysState T, conserved s → conserved (s.run ops) := by
  induction ops with
  | nil => intro s h; exact h
  | cons op ops ih => intro s h; exact ih _ (SysState.step_conserved s op h)

/-- Claim C7: starting from a freshly constructed pool, after every
sequence of pulls, handle drops, attaches and expands, the number of
objects held by live handles plus len() plus the objects discarded on a
failed return equals the number of objects ever introduced (initial fill
plus successful attach or expand). -/
theorem pool_conservation {T : Type u} (n : Nat) (init : Nat → T)
    (st0 : PoolState T) (ops : List (Op T))
    (h : Pool.new n init = Except.ok st0) :
    conserved (SysState.run (SysState.init st0 n) ops) := by
  apply SysState.run_conserved
  obtain ⟨q, hnew, hlen⟩ := Pool.new_spec n init
  have hst : st0 = (⟨⟨q, false⟩, init, n⟩ : PoolState T) :=
    Except.ok.inj (h.symm.trans hnew)
  subst hst
  simp [conserved, SysState.init, Pool.len, Channel.len, hlen]

/-- Witness for C7: a concrete two-object pool run through a pull, an
expand, a handle drop and an attach. -/
theorem pool_conservation_witness :
    Pool.new 2 (fun _ => 0) =
      Except.ok (⟨⟨[0, 0], false⟩, fun _ => 0, 2⟩ : PoolState Nat) ∧
    conserved (SysState.run
      (SysState.init (⟨⟨[0, 0], false⟩, fun _ => 0, 2⟩ : PoolState Nat) 2)
      [Op.pullOp, Op.expandOp, Op.dropOp 0, Op.attachOp 5]) :=
  ⟨rfl, pool_conservation 2 (fun _ => 0)
    (⟨⟨[0, 0], false⟩, fun _ => 0, 2⟩ : PoolState Nat)
    [Op.pullOp, Op.expandOp, Op.dropOp 0, Op.attachOp 5] rfl⟩

end AsyncBufPool
